import Mathlib

/-!
Verification development for the MediScribe evaluation harnesses
(`evaluate_pubmedqa.py`, `evaluate_worldmedqa.py`, `evaluate_vqa_rad.py`,
`evaluate_pubmedqa_simple.py`).

Strings are modelled as lists of characters (`Str`); Python's per-sample
mutable `self.results` dictionary is modelled as an explicit `Results`
record threaded through a fold; the external model-generation call is an
oracle parameter returning `none` when the call raises.
-/

/-- Strings, modelled as character lists so that slicing, case folding and
substring search can be reasoned about directly. -/
abbrev Str := List Char

/-- Python `str.lower()` (per-character case folding). -/
def lowerStr (s : Str) : Str := s.map Char.toLower

/-- Python `str.upper()` (per-character case folding). -/
def upperStr (s : Str) : Str := s.map Char.toUpper

/-- Python `str.strip()`: drop leading and trailing whitespace. -/
def pyStrip (s : Str) : Str :=
  ((s.dropWhile Char.isWhitespace).reverse.dropWhile Char.isWhitespace).reverse

/-- Does `pat` begin the list `s`? -/
def listStartsWith : Str → Str → Bool
  | [], _ => true
  | _ :: _, [] => false
  | p :: ps, c :: cs => p == c && listStartsWith ps cs

/-- Python's `pat in s` substring test. -/
def occursIn (pat : Str) (s : Str) : Bool :=
  match s with
  | [] => pat.isEmpty
  | _ :: cs => listStartsWith pat s || occursIn pat cs

def yesStr : Str := "yes".data
def noStr : Str := "no".data
def maybeStr : Str := "maybe".data
def unknownStr : Str := "unknown".data
def aStr : Str := "A".data
def bStr : Str := "B".data
def cStr : Str := "C".data
def dStr : Str := "D".data

/-- Spec-side definition, following the specification's words for the Answer
Extractor: scan the candidates in the alphabet's declared order and return
the first one occurring as a substring of the (already normalized) text,
or the sentinel `unknown` when none occurs. -/
def firstCandidateInOrder (alphabet : List Str) (t : Str) : Str :=
  match alphabet with
  | [] => unknownStr
  | c :: rest => if occursIn c t then c else firstCandidateInOrder rest t

namespace PubMed

/-- Answer extraction of `PubMedQAEvaluator.evaluate_sample`
(`evaluate_pubmedqa.py` lines 174-182): lower-case and strip the generated
text, then test `"yes"`, `"no"`, `"maybe"` in that order with Python's
substring operator, defaulting to `"unknown"`. -/
def extractAnswer (raw : Str) : Str :=
  let response_text := pyStrip (lowerStr raw)
  if occursIn yesStr response_text then yesStr
  else if occursIn noStr response_text then noStr
  else if occursIn maybeStr response_text then maybeStr
  else unknownStr

end PubMed

namespace WorldMed

/-- The candidate loop of `WorldMedQAEvaluator.evaluate_sample`
(`evaluate_worldmedqa.py` lines 173-178): `predicted = "unknown"`, then
`for letter in ['A','B','C','D']: if letter in response_text: predicted = letter; break`. -/
def pickLetter : List Str → Str → Str
  | [], _ => unknownStr
  | l :: rest, t => if occursIn l t then l else pickLetter rest t

/-- Answer extraction of `WorldMedQAEvaluator.evaluate_sample`
(`evaluate_worldmedqa.py` lines 172-178): upper-case and strip the
generated text, then pick the first of A, B, C, D occurring in it. -/
def extractAnswer (raw : Str) : Str :=
  let response_text := pyStrip (upperStr raw)
  pickLetter [aStr, bStr, cStr, dStr] response_text

end WorldMed

namespace VQARad

/-- Answer extraction of `VQARadEvaluator.evaluate_sample`
(`evaluate_vqa_rad.py` lines 160-168), the same chain as the PubMedQA
script. -/
def extractAnswer (raw : Str) : Str :=
  let response_text := pyStrip (lowerStr raw)
  if occursIn yesStr response_text then yesStr
  else if occursIn noStr response_text then noStr
  else if occursIn maybeStr response_text then maybeStr
  else unknownStr

end VQARad

/-- One entry of `self.results["predictions"]` (same dictionary shape in all
three dataset-backed scripts). -/
structure EvalResult where
  question : Str
  predicted : Str
  ground_truth : Str
  correct : Bool
  inference_time : ℚ
deriving DecidableEq

/-- The `self.results` accumulator dictionary (identical in
`evaluate_pubmedqa.py`, `evaluate_worldmedqa.py`, `evaluate_vqa_rad.py`). -/
structure Results where
  correct : Nat
  total : Nat
  exact_matches : Nat
  inference_times : List ℚ
  predictions : List EvalResult
deriving DecidableEq

/-- The accumulator as initialised in `__init__`. -/
def initResults : Results :=
  { correct := 0, total := 0, exact_matches := 0
    inference_times := [], predictions := [] }

/-- The metrics dictionary built by `_calculate_metrics` (identical in the
three dataset-backed scripts). -/
structure Metrics where
  model : Str
  total_samples : Nat
  correct : Nat
  accuracy : ℚ
  avg_inference_time_ms : ℚ
  predictions : List EvalResult

/-- `_calculate_metrics` (`evaluate_pubmedqa.py` lines 244-261, identical in
the other two dataset-backed scripts): returns `None` when `total == 0`,
otherwise accuracy `exact_matches / total * 100` and the average inference
time. -/
def calculate_metrics (quant : Str) (r : Results) : Option Metrics :=
  if r.total = 0 then none
  else some
    { model := quant
      total_samples := r.total
      correct := r.exact_matches
      accuracy := (r.exact_matches : ℚ) / (r.total : ℚ) * 100
      avg_inference_time_ms :=
        r.inference_times.sum / (r.inference_times.length : ℚ) * 1000
      predictions := r.predictions }

/-- The sample-count computation of `run_evaluation`
(`evaluate_pubmedqa.py` lines 203-205, `evaluate_worldmedqa.py` lines
207-209): `num_samples = self.max_samples if self.max_samples else
dataset_size` (Python truthiness: `None` and `0` both select the dataset
size) followed by `num_samples = min(num_samples, dataset_size)`. -/
def effectiveCount (max_samples : Option Nat) (dataset_size : Nat) : Nat :=
  let num_samples :=
    match max_samples with
    | none => dataset_size
    | some m => if m = 0 then dataset_size else m
  min num_samples dataset_size

/-- A default `EvalResult` used only as the `getD` fallback in statements. -/
def dfltPred : EvalResult :=
  { question := [], predicted := [], ground_truth := []
    correct := false, inference_time := 0 }

namespace PubMed

/-- A PubMedQA record as the script reads it: `sample.get("question", "")`,
`sample.get("context", "")`, `sample.get("final_decision", "unknown")`.
`none` models an absent key. -/
structure Sample where
  question : Option Str
  context : Option Str
  final_decision : Option Str
deriving DecidableEq

/-- `dataset[idx]` fallback for out-of-range statements (the loop never
actually indexes out of range). -/
def defaultSample : Sample := { question := none, context := none, final_decision := none }

/-- The `user_prompt` f-string of `evaluate_sample` (`evaluate_pubmedqa.py`
lines 144-154), with `context = sample.get("context", "")[:500]`
interpolated after truncation. -/
def user_prompt (s : Sample) : Str :=
  let question := s.question.getD []
  let context := (s.context.getD []).take 500
  ("Based on the following biomedical context, answer the question with yes, no, or maybe.\n\nContext: ").data
    ++ context
    ++ ("\n\nQuestion: ").data
    ++ question
    ++ ("\n\nAnswer (yes/no/maybe):").data

/-- The Gemma3 chat wrapping of `evaluate_sample` (line 157). -/
def formatted_prompt (s : Sample) : Str :=
  ("<start_of_turn>user\n").data ++ user_prompt s ++ ("\n<end_of_turn>\n<start_of_turn>model\n").data

/-- `PubMedQAEvaluator.evaluate_sample` (lines 134-188). The external
`generate` call is an oracle `g` from the formatted prompt to `none` (the
call raised, caught by the `except` at line 186) or `some` of the raw
generated text and the measured wall time; on success the raw text goes
through the answer extraction chain. -/
def evaluate_sample (g : Str → Option (Str × ℚ)) (s : Sample) : Str × ℚ :=
  match g (formatted_prompt s) with
  | none => (unknownStr, 0)
  | some (text, inference_time) => (extractAnswer text, inference_time)

/-- One iteration of the `run_evaluation` loop body (lines 209-234):
read the ground truth with default `"unknown"`, evaluate the sample,
increment `total`, append the inference time, increment `correct` and
`exact_matches` when `predicted == ground_truth`, and append the
prediction record (question preview truncated to 100 characters). -/
def stepSample (g : Str → Option (Str × ℚ)) (s : Sample) (r : Results) : Results :=
  let ground_truth := s.final_decision.getD unknownStr
  let pd := evaluate_sample g s
  let hit := pd.1 == ground_truth
  { correct := r.correct + (if hit then 1 else 0)
    total := r.total + 1
    exact_matches := r.exact_matches + (if hit then 1 else 0)
    inference_times := r.inference_times ++ [pd.2]
    predictions := r.predictions ++
      [{ question := (s.question.getD []).take 100
         predicted := pd.1
         ground_truth := ground_truth
         correct := hit
         inference_time := pd.2 }] }

/-- The prediction record the loop appends for dataset index `idx`; the
generation oracle is indexed by the sample position to model the external
call's own evolving state. -/
def predEntry (gen : Nat → Str → Option (Str × ℚ)) (ds : List Sample) (idx : Nat) : EvalResult :=
  let s := ds.getD idx defaultSample
  let ground_truth := s.final_decision.getD unknownStr
  let pd := evaluate_sample (gen idx) s
  { question := (s.question.getD []).take 100
    predicted := pd.1
    ground_truth := ground_truth
    correct := pd.1 == ground_truth
    inference_time := pd.2 }

/-- The `for idx in range(num_samples)` loop of `run_evaluation`
(lines 209-240), folding the loop body over indices `0, 1, ..., n-1`. -/
def run_loop (gen : Nat → Str → Option (Str × ℚ)) (ds : List Sample) (n : Nat) : Results :=
  (List.range n).foldl (fun r idx => stepSample (gen idx) (ds.getD idx defaultSample) r) initResults

/-- The 3-record fallback of `_create_mock_dataset` (lines 113-132). -/
def mockDataset : List Sample :=
  [ { question := some ("Is there evidence for the efficacy of treatment A in condition B?").data
      context := some ("A randomized controlled trial was conducted...").data
      final_decision := some yesStr }
  , { question := some ("Does drug X improve outcomes in disease Y?").data
      context := some ("In a systematic review of 15 studies...").data
      final_decision := some noStr }
  , { question := some ("Is gene Z associated with condition C?").data
      context := some ("Multiple association studies have examined...").data
      final_decision := some maybeStr } ]

/-- `PubMedQAEvaluator.run_evaluation` (lines 190-242): abort with `None`
when `setup_model` fails; `load_pubmedqa` always succeeds (it falls back to
the mock dataset, lines 107-111); then run the loop on
`min(max_samples or size, size)` samples and reduce with
`_calculate_metrics`. -/
def run_evaluation (quant : Str) (setupOk : Bool) (loaded : Option (List Sample))
    (gen : Nat → Str → Option (Str × ℚ)) (max_samples : Option Nat) : Option Metrics :=
  if setupOk then
    let ds := loaded.getD mockDataset
    calculate_metrics quant (run_loop gen ds (effectiveCount max_samples ds.length))
  else none

/-- The final `self.results` state of one evaluator after `run_evaluation`:
when setup fails the accumulator is still the `__init__` state. -/
def finalResults (setupOk : Bool) (loaded : Option (List Sample))
    (gen : Nat → Str → Option (Str × ℚ)) (max_samples : Option Nat) : Results :=
  if setupOk then
    let ds := loaded.getD mockDataset
    run_loop gen ds (effectiveCount max_samples ds.length)
  else initResults

end PubMed

namespace WorldMed

/-- The `sample.get("image")` payload: a PIL image object, a base64 string,
or something else (including Python `None` for an absent key, modelled by
`Option.none` around this type). The pixel content is irrelevant to the
claims and is not modelled. -/
inductive ImageData where
  | pilImage : ImageData
  | b64 (data : Str) : ImageData
  | other : ImageData
deriving DecidableEq

/-- `WorldMedQAEvaluator.decode_image` (`evaluate_worldmedqa.py` lines
113-123): a PIL image is converted and returned; a base64 string goes
through the external `b64decode`/`Image.open` pipeline, modelled by the
oracle `dec` (`none` covers a decoding failure, which in the source raises
and is caught by the outer `except` of `evaluate_sample`, yielding the same
`("unknown", 0.0)` outcome as a `None` image); anything else gives `None`. -/
def decode_image (dec : Str → Option Unit) : Option ImageData → Option Unit
  | some ImageData.pilImage => some ()
  | some (ImageData.b64 s) => dec s
  | some ImageData.other => none
  | none => none

/-- A WorldMedQA record as the script reads it: `sample.get("image")`,
`sample.get("question", "")`, `sample.get("correct_option", "unknown")`. -/
structure Sample where
  image : Option ImageData
  question : Option Str
  correct_option : Option Str
deriving DecidableEq

def defaultSample : Sample := { image := none, question := none, correct_option := none }

/-- The `user_prompt` f-string of `evaluate_sample` (lines 146-151). -/
def user_prompt (s : Sample) : Str :=
  let question := s.question.getD []
  ("Based on the medical image and clinical context provided, \nselect the correct answer from the options A, B, C, or D.\n\n").data
    ++ question
    ++ ("\n\nYour answer (A/B/C/D):").data

/-- The multimodal wrapping of line 154: `f"\x7bself.processor.boi_token\x7d\n\x7buser_prompt\x7d"`,
with the processor's `boi_token` supplied as a parameter. -/
def formatted_prompt (boi : Str) (s : Sample) : Str :=
  boi ++ ("\n").data ++ user_prompt s

/-- `WorldMedQAEvaluator.evaluate_sample` (lines 125-188): decode the image
(a `None` image returns `("unknown", 0.0)` at line 140, and any raised
error is caught by the outer `except` at line 186 with the same result),
then call `generate` with the formatted prompt and the image — the external
call is the oracle `g`, `none` meaning it raised (caught at line 182) —
and extract the answer letter on success. -/
def evaluate_sample (dec : Str → Option Unit) (boi : Str)
    (g : Str → Option (Str × ℚ)) (s : Sample) : Str × ℚ :=
  match decode_image dec s.image with
  | none => (unknownStr, 0)
  | some _ =>
    match g (formatted_prompt boi s) with
    | none => (unknownStr, 0)
    | some (text, inference_time) => (extractAnswer text, inference_time)

/-- One iteration of the `run_evaluation` loop body (lines 213-241):
ground truth defaults to `"unknown"`, question preview truncated to 80
characters, otherwise the same accumulator updates as the PubMedQA script. -/
def stepSample (dec : Str → Option Unit) (boi : Str)
    (g : Str → Option (Str × ℚ)) (s : Sample) (r : Results) : Results :=
  let ground_truth := s.correct_option.getD unknownStr
  let pd := evaluate_sample dec boi g s
  let hit := pd.1 == ground_truth
  { correct := r.correct + (if hit then 1 else 0)
    total := r.total + 1
    exact_matches := r.exact_matches + (if hit then 1 else 0)
    inference_times := r.inference_times ++ [pd.2]
    predictions := r.predictions ++
      [{ question := (s.question.getD []).take 80
         predicted := pd.1
         ground_truth := ground_truth
         correct := hit
         inference_time := pd.2 }] }

/-- The prediction record appended for dataset index `idx`. -/
def predEntry (dec : Str → Option Unit) (boi : Str)
    (gen : Nat → Str → Option (Str × ℚ)) (ds : List Sample) (idx : Nat) : EvalResult :=
  let s := ds.getD idx defaultSample
  let ground_truth := s.correct_option.getD unknownStr
  let pd := evaluate_sample dec boi (gen idx) s
  { question := (s.question.getD []).take 80
    predicted := pd.1
    ground_truth := ground_truth
    correct := pd.1 == ground_truth
    inference_time := pd.2 }

/-- The `for idx in range(num_samples)` loop of `run_evaluation`
(lines 213-247) over the train split. -/
def run_loop (dec : Str → Option Unit) (boi : Str)
    (gen : Nat → Str → Option (Str × ℚ)) (ds : List Sample) (n : Nat) : Results :=
  (List.range n).foldl
    (fun r idx => stepSample dec boi (gen idx) (ds.getD idx defaultSample) r) initResults

end WorldMed

namespace VQARad

/-- A VQA-RAD record as the script reads it: `sample.get("image")`,
`sample.get("question", "")`, `sample.get("answer", "unknown")`. The image
is passed opaquely to the generation call. -/
structure Sample where
  image : Option Unit
  question : Option Str
  answer : Option Str

def defaultSample : Sample := { image := none, question := none, answer := none }

/-- The prompt of `VQARadEvaluator.evaluate_sample`
(`evaluate_vqa_rad.py` line 142), with the processor's `boi_token`
supplied as a parameter. -/
def formatted_prompt (boi : Str) (s : Sample) : Str :=
  boi ++ ("\nQuestion: ").data ++ s.question.getD [] ++ ("\nAnswer:").data

/-- `VQARadEvaluator.evaluate_sample` (lines 121-178): the external
`generate` call is the oracle `g` (`none` meaning it raised, caught at
lines 172-178 together with any sample-processing error, both yielding
`("unknown", 0.0)`); on success the raw text goes through the same
yes/no/maybe chain as the PubMedQA script. -/
def evaluate_sample (boi : Str) (g : Str → Option (Str × ℚ)) (s : Sample) : Str × ℚ :=
  match g (formatted_prompt boi s) with
  | none => (unknownStr, 0)
  | some (text, inference_time) => (extractAnswer text, inference_time)

/-- One iteration of the `run_evaluation` loop body (lines 199-224); note
`ground_truth = sample.get("answer", "unknown").lower()` — the default is
also passed through `lower()`. -/
def stepSample (boi : Str) (g : Str → Option (Str × ℚ)) (s : Sample) (r : Results) : Results :=
  let ground_truth := lowerStr (s.answer.getD unknownStr)
  let pd := evaluate_sample boi g s
  let hit := pd.1 == ground_truth
  { correct := r.correct + (if hit then 1 else 0)
    total := r.total + 1
    exact_matches := r.exact_matches + (if hit then 1 else 0)
    inference_times := r.inference_times ++ [pd.2]
    predictions := r.predictions ++
      [{ question := (s.question.getD []).take 100
         predicted := pd.1
         ground_truth := ground_truth
         correct := hit
         inference_time := pd.2 }] }

end VQARad

namespace SimpleQA

/-- One record of the hardcoded question bank of
`SimpleQAEvaluator.get_sample_questions` (`evaluate_pubmedqa_simple.py`
lines 50-101). -/
structure Question where
  question : Str
  expected : Str
  category : Str
deriving DecidableEq

/-- The 10 hardcoded biomedical questions (lines 50-101). -/
def questionsList : List Question :=
  [ { question := ("Does metformin reduce cardiovascular risk in type 2 diabetes?").data
      expected := yesStr, category := ("pharmacology").data }
  , { question := ("Is homeopathy effective for treating bacterial infections?").data
      expected := noStr, category := ("alternative_medicine").data }
  , { question := ("Does vitamin D supplementation prevent COVID-19?").data
      expected := maybeStr, category := ("infectious_disease").data }
  , { question := ("Can antibiotics treat viral pneumonia?").data
      expected := noStr, category := ("infectious_disease").data }
  , { question := ("Is aspirin effective for primary prevention of heart disease?").data
      expected := maybeStr, category := ("cardiology").data }
  , { question := ("Does exercise improve outcomes in heart failure patients?").data
      expected := yesStr, category := ("cardiology").data }
  , { question := ("Is cognitive behavioral therapy effective for depression?").data
      expected := yesStr, category := ("psychiatry").data }
  , { question := ("Does coffee consumption increase cancer risk?").data
      expected := noStr, category := ("oncology").data }
  , { question := ("Are statins beneficial in elderly patients without prior cardiovascular disease?").data
      expected := maybeStr, category := ("geriatrics").data }
  , { question := ("Does early antibiotic treatment improve pneumonia outcomes?").data
      expected := yesStr, category := ("infectious_disease").data } ]

/-- Remove the element at position `i`. -/
def removeAt (xs : List Question) (i : Nat) : List Question :=
  xs.take i ++ xs.drop (i + 1)

/-- Model of Python's `random.sample(population, k)`: draw `k` distinct
elements, without replacement, at positions chosen by the pseudo-random
number generator; the PRNG's choices are supplied explicitly as the stream
`picks` (the draw for the step with `k` remaining picks position
`picks k mod remaining length`). The essential point for the claims is that
both the subset and its order depend on the PRNG state. -/
def randomSample (picks : Nat → Nat) (xs : List Question) : Nat → List Question
  | 0 => []
  | k + 1 =>
    match xs with
    | [] => []
    | _ :: _ =>
      let i := picks k % xs.length
      xs.getD i { question := [], expected := [], category := [] }
        :: randomSample picks (removeAt xs i) k

/-- `SimpleQAEvaluator.get_sample_questions` (lines 48-104):
`random.sample(questions, min(self.max_samples, len(questions)))`. -/
def get_sample_questions (picks : Nat → Nat) (max_samples : Nat) : List Question :=
  randomSample picks questionsList (min max_samples questionsList.length)

end SimpleQA

/-- The per-variant environment of one `PubMedQAEvaluator`: whether
`setup_model` succeeds, what `load_dataset` returns (`none` meaning it
raised, which for PubMedQA falls back to the mock dataset), and the
generation oracle. -/
structure VariantEnv where
  setupOk : Bool
  loaded : Option (List PubMed.Sample)
  gen : Nat → Str → Option (Str × ℚ)

/-- The three quantization variants iterated by `compare_quantizations`. -/
inductive Quant where
  | q4 | q6 | q8
deriving DecidableEq, BEq

/-- The fixed iteration order `["4bit", "6bit", "8bit"]`. -/
def quantOrder : List Quant := [Quant.q4, Quant.q6, Quant.q8]

/-- `compare_quantizations` (`evaluate_pubmedqa.py` lines 286-299): for each
variant in order, build a fresh evaluator, run it, and store
`results[quant] = evaluator.results`; every failure inside
`run_evaluation` is converted into a `None` return (never an escaping
exception), so the stored state of a failed variant is the `__init__`
accumulator. -/
def compare_quantizations (env : Quant → VariantEnv) (max_samples : Option Nat) :
    List (Quant × Results) :=
  quantOrder.foldl
    (fun acc q =>
      acc ++ [(q, PubMed.finalResults (env q).setupOk (env q).loaded (env q).gen max_samples)])
    []

/-- The label of the most recently appended prediction record, if any. -/
def lastPredicted (r : Results) : Option Str :=
  (r.predictions.getLast?).map EvalResult.predicted

/-- Concrete generation oracle used by witnesses: always answers yes in 1s. -/
def wGen : Nat → Str → Option (Str × ℚ) := fun _ _ => some (yesStr, 1)

/-- Concrete per-sample generation oracle used by witnesses. -/
def wG : Str → Option (Str × ℚ) := fun _ => some (yesStr, 1)

/-- Concrete always-raising generation oracle used by witnesses. -/
def wGenFail : Nat → Str → Option (Str × ℚ) := fun _ _ => none

/-- Concrete sample with a short context, used by witnesses. -/
def wSampleShort : PubMed.Sample :=
  { question := some ("Q").data, context := some ("short").data, final_decision := some yesStr }

/-- A non-initial accumulator state used by witnesses. -/
def wResultsAlt : Results :=
  { correct := 3, total := 5, exact_matches := 3, inference_times := [2], predictions := [] }

/-- Witness environment: variant 2 (6bit) fails at setup, the others load. -/
def wEnv : Quant → VariantEnv := fun q =>
  match q with
  | Quant.q6 => { setupOk := false, loaded := none, gen := wGenFail }
  | _ => { setupOk := true, loaded := none, gen := wGen }

/-- Concrete per-sample always-raising oracle used by witnesses. -/
def wGFail : Str → Option (Str × ℚ) := fun _ => none

/-- Concrete two-sample dataset with real labels, used by witnesses. -/
def wDs2 : List PubMed.Sample :=
  [ { question := some ("q0").data, context := none, final_decision := some yesStr }
  , { question := some ("q1").data, context := none, final_decision := some yesStr } ]

/-- Concrete oracle raising exactly on the first sample, used by witnesses. -/
def wGenFailAt0 : Nat → Str → Option (Str × ℚ) :=
  fun i _ => if i = 0 then none else some (yesStr, 1)

namespace PubMed

theorem run_loop_succ (gen : Nat → Str → Option (Str × ℚ)) (ds : List Sample) (n : Nat) :
    run_loop gen ds (n + 1)
      = stepSample (gen n) (ds.getD n defaultSample) (run_loop gen ds n) := by
  simp [run_loop, List.range_succ]

theorem run_loop_total (gen : Nat → Str → Option (Str × ℚ)) (ds : List Sample) :
    ∀ n, (run_loop gen ds n).total = n
  | 0 => rfl
  | n + 1 => by
      rw [run_loop_succ]
      show (run_loop gen ds n).total + 1 = n + 1
      rw [run_loop_total gen ds n]

theorem run_loop_exact_eq_correct (gen : Nat → Str → Option (Str × ℚ)) (ds : List Sample) :
    ∀ n, (run_loop gen ds n).exact_matches = (run_loop gen ds n).correct
  | 0 => rfl
  | n + 1 => by
      rw [run_loop_succ]
      unfold stepSample
      dsimp
      rw [run_loop_exact_eq_correct gen ds n]

theorem run_loop_correct_le_total (gen : Nat → Str → Option (Str × ℚ)) (ds : List Sample) :
    ∀ n, (run_loop gen ds n).correct ≤ (run_loop gen ds n).total
  | 0 => Nat.le_refl 0
  | n + 1 => by
      rw [run_loop_succ]
      unfold stepSample
      dsimp
      have h := run_loop_correct_le_total gen ds n
      rw [run_loop_total gen ds n]
      rw [run_loop_total gen ds n] at h
      split <;> omega

theorem run_loop_predictions (gen : Nat → Str → Option (Str × ℚ)) (ds : List Sample) :
    ∀ n, (run_loop gen ds n).predictions = (List.range n).map (predEntry gen ds)
  | 0 => rfl
  | n + 1 => by
      rw [run_loop_succ, List.range_succ, List.map_append, ← run_loop_predictions gen ds n]
      rfl

theorem run_loop_predictions_length (gen : Nat → Str → Option (Str × ℚ)) (ds : List Sample)
    (n : Nat) : (run_loop gen ds n).predictions.length = n := by
  rw [run_loop_predictions]
  simp

theorem run_loop_predictions_getD (gen : Nat → Str → Option (Str × ℚ)) (ds : List Sample)
    {n k : Nat} (h : k < n) :
    (run_loop gen ds n).predictions.getD k dfltPred = predEntry gen ds k := by
  rw [run_loop_predictions, List.getD_eq_getElem?_getD, List.getElem?_map,
    List.getElem?_range h]
  rfl

end PubMed

namespace WorldMed

theorem run_loop_succ_wm (dec : Str → Option Unit) (boi : Str)
    (gen : Nat → Str → Option (Str × ℚ)) (ds : List Sample) (n : Nat) :
    run_loop dec boi gen ds (n + 1)
      = stepSample dec boi (gen n) (ds.getD n defaultSample) (run_loop dec boi gen ds n) := by
  simp [run_loop, List.range_succ]

theorem run_loop_total_wm (dec : Str → Option Unit) (boi : Str)
    (gen : Nat → Str → Option (Str × ℚ)) (ds : List Sample) :
    ∀ n, (run_loop dec boi gen ds n).total = n
  | 0 => rfl
  | n + 1 => by
      rw [run_loop_succ_wm]
      show (run_loop dec boi gen ds n).total + 1 = n + 1
      rw [run_loop_total_wm dec boi gen ds n]

theorem run_loop_correct_le_total_wm (dec : Str → Option Unit) (boi : Str)
    (gen : Nat → Str → Option (Str × ℚ)) (ds : List Sample) :
    ∀ n, (run_loop dec boi gen ds n).correct ≤ (run_loop dec boi gen ds n).total
  | 0 => Nat.le_refl 0
  | n + 1 => by
      rw [run_loop_succ_wm]
      unfold stepSample
      dsimp
      have h := run_loop_correct_le_total_wm dec boi gen ds n
      rw [run_loop_total_wm dec boi gen ds n]
      rw [run_loop_total_wm dec boi gen ds n] at h
      split <;> omega

theorem run_loop_predictions_wm (dec : Str → Option Unit) (boi : Str)
    (gen : Nat → Str → Option (Str × ℚ)) (ds : List Sample) :
    ∀ n, (run_loop dec boi gen ds n).predictions
      = (List.range n).map (predEntry dec boi gen ds)
  | 0 => rfl
  | n + 1 => by
      rw [run_loop_succ_wm, List.range_succ, List.map_append,
        ← run_loop_predictions_wm dec boi gen ds n]
      rfl

end WorldMed

/-- C1: For every raw generated text, the extractors of the QA script
(alphabet yes, no, maybe) and of the WorldMedQA script (alphabet A, B, C, D)
return the first candidate in the alphabet's declared order occurring as a
substring of the case-folded, trimmed text, and `unknown` when no candidate
occurs; in particular when several candidates occur the winner is the one
earliest in alphabet order (e.g. `yes` beats `maybe`), not the one occurring
earliest in the text. -/
theorem answer_extractor_alphabet_order_first_match :
    (∀ raw : Str, PubMed.extractAnswer raw
        = firstCandidateInOrder [yesStr, noStr, maybeStr] (pyStrip (lowerStr raw)))
    ∧ (∀ raw : Str, WorldMed.extractAnswer raw
        = firstCandidateInOrder [aStr, bStr, cStr, dStr] (pyStrip (upperStr raw)))
    ∧ (∀ raw : Str,
        occursIn yesStr (pyStrip (lowerStr raw)) = true →
        PubMed.extractAnswer raw = yesStr)
    ∧ (∀ raw : Str,
        occursIn yesStr (pyStrip (lowerStr raw)) = false →
        occursIn noStr (pyStrip (lowerStr raw)) = false →
        occursIn maybeStr (pyStrip (lowerStr raw)) = false →
        PubMed.extractAnswer raw = unknownStr) := by
  refine ⟨fun raw => ?_, fun raw => ?_, fun raw h => ?_, fun raw h1 h2 h3 => ?_⟩
  · simp only [PubMed.extractAnswer, firstCandidateInOrder]
  · simp only [WorldMed.extractAnswer, WorldMed.pickLetter, firstCandidateInOrder]
  · simp only [PubMed.extractAnswer, h, if_true]
  · simp only [PubMed.extractAnswer, h1, h2, h3, if_false, Bool.false_eq_true]

/-- Witness for C1 at the spec's own example: the text `"not sure, maybe yes"`
contains both `maybe` and `yes`, and `yes` (earliest in alphabet order) wins
even though `maybe` occurs earlier in the text. -/
theorem answer_extractor_alphabet_order_first_match_witness :
    occursIn yesStr (pyStrip (lowerStr "not sure, maybe yes".data)) = true
    ∧ occursIn maybeStr (pyStrip (lowerStr "not sure, maybe yes".data)) = true
    ∧ PubMed.extractAnswer "not sure, maybe yes".data = yesStr := by
  refine ⟨by decide, by decide, ?_⟩
  exact answer_extractor_alphabet_order_first_match.2.2.1 "not sure, maybe yes".data (by decide)

/-- C2 counterexample: the claim as stated is false. With a one-sample
dataset whose record lacks the `final_decision` key, a generation call that
raises on sample index 0 yields the entry `(unknown, 0.0)` — but its
correctness flag is `true`, not `false`, because the ground truth also
defaults to `"unknown"` and `"unknown" == "unknown"`. -/
theorem eval_loop_generation_failure_flag_counterexample :
    wGenFail 0 (PubMed.formatted_prompt ([PubMed.defaultSample].getD 0 PubMed.defaultSample)) = none
    ∧ ((PubMed.run_loop wGenFail [PubMed.defaultSample]
          (effectiveCount none 1)).predictions.getD 0 dfltPred).correct = true := by
  exact ⟨rfl, rfl⟩

/-- C2 (amended): if the generation call raises on sample index `k`, the
Sample Evaluator returns `(unknown, 0.0)` for that sample and the loop still
evaluates every other sample, so the result list has exactly N entries,
entry `k` has predicted `unknown` and elapsed time `0.0`, and — provided the
sample's ground-truth label (after the `"unknown"` default) is not itself
the sentinel `unknown` — correctness flag `false`. -/
theorem eval_loop_generation_failure_isolated :
    ∀ (gen : Nat → Str → Option (Str × ℚ)) (cap : Option Nat)
      (ds : List PubMed.Sample) (k : Nat),
    k < effectiveCount cap ds.length →
    gen k (PubMed.formatted_prompt (ds.getD k PubMed.defaultSample)) = none →
    PubMed.evaluate_sample (gen k) (ds.getD k PubMed.defaultSample) = (unknownStr, 0)
    ∧ (PubMed.run_loop gen ds (effectiveCount cap ds.length)).predictions.length
        = effectiveCount cap ds.length
    ∧ (∀ j, j < effectiveCount cap ds.length →
        (PubMed.run_loop gen ds (effectiveCount cap ds.length)).predictions.getD j dfltPred
          = PubMed.predEntry gen ds j)
    ∧ ((PubMed.run_loop gen ds (effectiveCount cap ds.length)).predictions.getD k dfltPred).predicted
        = unknownStr
    ∧ ((PubMed.run_loop gen ds (effectiveCount cap ds.length)).predictions.getD k dfltPred).inference_time
        = 0
    ∧ ((ds.getD k PubMed.defaultSample).final_decision.getD unknownStr ≠ unknownStr →
        ((PubMed.run_loop gen ds (effectiveCount cap ds.length)).predictions.getD k dfltPred).correct
          = false) := by
  intro gen cap ds k hk hfail
  have heval : PubMed.evaluate_sample (gen k) (ds.getD k PubMed.defaultSample) = (unknownStr, 0) := by
    unfold PubMed.evaluate_sample
    rw [hfail]
  have hentry := PubMed.run_loop_predictions_getD gen ds hk
  refine ⟨heval, PubMed.run_loop_predictions_length gen ds _,
    fun j hj => PubMed.run_loop_predictions_getD gen ds hj, ?_, ?_, ?_⟩
  · rw [hentry]
    show (PubMed.evaluate_sample (gen k) (ds.getD k PubMed.defaultSample)).1 = unknownStr
    rw [heval]
  · rw [hentry]
    show (PubMed.evaluate_sample (gen k) (ds.getD k PubMed.defaultSample)).2 = 0
    rw [heval]
  · intro hgt
    rw [hentry]
    show ((PubMed.evaluate_sample (gen k) (ds.getD k PubMed.defaultSample)).1
        == (ds.getD k PubMed.defaultSample).final_decision.getD unknownStr) = false
    rw [heval]
    exact beq_eq_false_iff_ne.mpr fun he => hgt he.symm

/-- Witness for the amended C2: a two-sample labelled dataset whose
generation call raises exactly on sample 0. -/
theorem eval_loop_generation_failure_isolated_witness :
    PubMed.evaluate_sample (wGenFailAt0 0) (wDs2.getD 0 PubMed.defaultSample) = (unknownStr, 0)
    ∧ (PubMed.run_loop wGenFailAt0 wDs2 (effectiveCount none wDs2.length)).predictions.length
        = effectiveCount none wDs2.length
    ∧ ((PubMed.run_loop wGenFailAt0 wDs2 (effectiveCount none wDs2.length)).predictions.getD 0 dfltPred).predicted
        = unknownStr
    ∧ ((PubMed.run_loop wGenFailAt0 wDs2 (effectiveCount none wDs2.length)).predictions.getD 0 dfltPred).inference_time
        = 0
    ∧ ((PubMed.run_loop wGenFailAt0 wDs2 (effectiveCount none wDs2.length)).predictions.getD 0 dfltPred).correct
        = false := by
  have h := eval_loop_generation_failure_isolated wGenFailAt0 none wDs2 0 (by decide) rfl
  exact ⟨h.1, h.2.1, h.2.2.2.1, h.2.2.2.2.1, h.2.2.2.2.2 (by decide)⟩

/-- C3: on every accumulator state the Evaluation Loop can produce, the
metrics reduction returns no numeric value (Python `None`) when `total = 0`,
and accuracy `correct / total * 100` (the loop keeps
`exact_matches = correct`) when `total > 0`. -/
theorem metrics_no_results_guard :
    ∀ (quant : Str) (gen : Nat → Str → Option (Str × ℚ)) (ds : List PubMed.Sample) (k : Nat),
    ((PubMed.run_loop gen ds k).total = 0 →
        calculate_metrics quant (PubMed.run_loop gen ds k) = none)
    ∧ (0 < (PubMed.run_loop gen ds k).total →
        ∃ m, calculate_metrics quant (PubMed.run_loop gen ds k) = some m
          ∧ m.accuracy
              = ((PubMed.run_loop gen ds k).correct : ℚ)
                  / ((PubMed.run_loop gen ds k).total : ℚ) * 100) := by
  intro quant gen ds k
  constructor
  · intro h
    unfold calculate_metrics
    rw [if_pos h]
  · intro h
    unfold calculate_metrics
    rw [if_neg (by omega)]
    refine ⟨_, rfl, ?_⟩
    dsimp
    rw [PubMed.run_loop_exact_eq_correct]

/-- Witness for C3: the empty run reports no results; a one-sample run
reports `correct / total * 100`. -/
theorem metrics_no_results_guard_witness :
    calculate_metrics ("4bit").data (PubMed.run_loop wGen PubMed.mockDataset 0) = none
    ∧ ∃ m, calculate_metrics ("4bit").data (PubMed.run_loop wGen PubMed.mockDataset 1) = some m
        ∧ m.accuracy = ((PubMed.run_loop wGen PubMed.mockDataset 1).correct : ℚ)
            / ((PubMed.run_loop wGen PubMed.mockDataset 1).total : ℚ) * 100 := by
  refine ⟨(metrics_no_results_guard ("4bit").data wGen PubMed.mockDataset 0).1 rfl,
    (metrics_no_results_guard ("4bit").data wGen PubMed.mockDataset 1).2 ?_⟩
  rw [PubMed.run_loop_total]
  exact Nat.one_pos

/-- C4 counterexample: the claim as stated is false for the simple QA
script, whose `get_sample_questions` draws its questions with
`random.sample`. Under the concrete PRNG choice stream that always picks
position 1, a cap of 2 evaluates the questions at dataset indices 1 and 2 —
not the sequential prefix at indices 0 and 1. -/
theorem simple_eval_random_sample_counterexample :
    SimpleQA.get_sample_questions (fun _ => 1) 2
      = [SimpleQA.questionsList.getD 1 { question := [], expected := [], category := [] },
         SimpleQA.questionsList.getD 2 { question := [], expected := [], category := [] }]
    ∧ SimpleQA.get_sample_questions (fun _ => 1) 2 ≠ SimpleQA.questionsList.take 2 := by
  exact ⟨by decide, by decide⟩

/-- C4 (amended): for the dataset-backed Evaluation Loops (the PubMedQA and
WorldMedQA scripts) the loop evaluates exactly
`min(cap or dataset_length, dataset_length)` samples and its k-th result is
the evaluation of dataset index k, i.e. indices are visited in strictly
increasing sequential order; the simple QA script instead selects its
questions via `random.sample` and is exempt from this order. -/
theorem eval_loop_sequential_order :
    (∀ (gen : Nat → Str → Option (Str × ℚ)) (cap : Option Nat) (ds : List PubMed.Sample),
      effectiveCount cap ds.length ≤ ds.length
      ∧ (PubMed.run_loop gen ds (effectiveCount cap ds.length)).total
          = effectiveCount cap ds.length
      ∧ (PubMed.run_loop gen ds (effectiveCount cap ds.length)).predictions
          = (List.range (effectiveCount cap ds.length)).map (PubMed.predEntry gen ds))
    ∧ (∀ (dec : Str → Option Unit) (boi : Str) (gen : Nat → Str → Option (Str × ℚ))
         (cap : Option Nat) (ds : List WorldMed.Sample),
      effectiveCount cap ds.length ≤ ds.length
      ∧ (WorldMed.run_loop dec boi gen ds (effectiveCount cap ds.length)).total
          = effectiveCount cap ds.length
      ∧ (WorldMed.run_loop dec boi gen ds (effectiveCount cap ds.length)).predictions
          = (List.range (effectiveCount cap ds.length)).map
              (WorldMed.predEntry dec boi gen ds)) := by
  constructor
  · intro gen cap ds
    refine ⟨?_, PubMed.run_loop_total gen ds _, PubMed.run_loop_predictions gen ds _⟩
    simp only [effectiveCount]
    exact Nat.min_le_right _ _
  · intro dec boi gen cap ds
    refine ⟨?_, WorldMed.run_loop_total_wm dec boi gen ds _,
      WorldMed.run_loop_predictions_wm dec boi gen ds _⟩
    simp only [effectiveCount]
    exact Nat.min_le_right _ _

/-- C5: for every sample, the context interpolated into the prompt is the
prefix of the raw context of length `min 500 (length context)`: a longer
context is cut to exactly its first 500 characters and a context of at most
500 characters is interpolated unchanged. -/
theorem context_truncated_to_500 :
    ∀ s : PubMed.Sample, ∃ ctx' rest : Str,
      PubMed.user_prompt s
        = ("Based on the following biomedical context, answer the question with yes, no, or maybe.\n\nContext: ").data
          ++ ctx' ++ ("\n\nQuestion: ").data ++ (s.question.getD [])
          ++ ("\n\nAnswer (yes/no/maybe):").data
      ∧ ctx' ++ rest = s.context.getD []
      ∧ ctx'.length = min 500 (s.context.getD []).length
      ∧ ((s.context.getD []).length ≤ 500 → ctx' = s.context.getD []) := by
  intro s
  refine ⟨(s.context.getD []).take 500, (s.context.getD []).drop 500, rfl,
    List.take_append_drop 500 (s.context.getD []),
    List.length_take 500 (s.context.getD []), ?_⟩
  intro h
  exact List.take_of_length_le h

/-- Witness for C5 at a concrete sample whose context has 5 characters:
it is interpolated unchanged. -/
theorem context_truncated_to_500_witness :
    ∃ ctx' rest : Str,
      PubMed.user_prompt wSampleShort
        = ("Based on the following biomedical context, answer the question with yes, no, or maybe.\n\nContext: ").data
          ++ ctx' ++ ("\n\nQuestion: ").data ++ ("Q").data
          ++ ("\n\nAnswer (yes/no/maybe):").data
      ∧ ctx' ++ rest = ("short").data
      ∧ ctx'.length = min 500 ("short").data.length
      ∧ ctx' = ("short").data := by
  obtain ⟨ctx', rest, h1, h2, h3, h4⟩ := context_truncated_to_500 wSampleShort
  exact ⟨ctx', rest, h1, h2, h3, h4 (by decide)⟩

/-- C6: the Comparison Driver stores, for each of the three quantization
variants, exactly the result state of that variant's own independent
evaluation: in particular the entries recorded for variants 1 (`4bit`) and
3 (`8bit`) do not depend on variant 2 (`6bit`) at all, so when variant 2
fails entirely at setup the other two still produce metrics whenever their
runs evaluated at least one sample. -/
theorem compare_variant_failure_isolated :
    ∀ (env : Quant → VariantEnv) (cap : Option Nat),
      (compare_quantizations env cap).lookup Quant.q4
        = some (PubMed.finalResults (env Quant.q4).setupOk (env Quant.q4).loaded
            (env Quant.q4).gen cap)
      ∧ (compare_quantizations env cap).lookup Quant.q8
        = some (PubMed.finalResults (env Quant.q8).setupOk (env Quant.q8).loaded
            (env Quant.q8).gen cap)
      ∧ ((env Quant.q6).setupOk = false →
          ∀ quant : Str,
            (0 < (PubMed.finalResults (env Quant.q4).setupOk (env Quant.q4).loaded
                    (env Quant.q4).gen cap).total →
              ∃ m, calculate_metrics quant
                  (PubMed.finalResults (env Quant.q4).setupOk (env Quant.q4).loaded
                    (env Quant.q4).gen cap) = some m)
            ∧ (0 < (PubMed.finalResults (env Quant.q8).setupOk (env Quant.q8).loaded
                    (env Quant.q8).gen cap).total →
              ∃ m, calculate_metrics quant
                  (PubMed.finalResults (env Quant.q8).setupOk (env Quant.q8).loaded
                    (env Quant.q8).gen cap) = some m)) := by
  intro env cap
  refine ⟨rfl, rfl, fun _ quant => ⟨fun h => ?_, fun h => ?_⟩⟩
  · unfold calculate_metrics
    rw [if_neg (by omega)]
    exact ⟨_, rfl⟩
  · unfold calculate_metrics
    rw [if_neg (by omega)]
    exact ⟨_, rfl⟩

/-- Witness for C6: in `wEnv` variant 2 fails at setup, and variants 1 and
3 (which fall back to the mock dataset) still produce metrics. -/
theorem compare_variant_failure_isolated_witness :
    (wEnv Quant.q6).setupOk = false
    ∧ (∃ m, calculate_metrics ("4bit").data
        (PubMed.finalResults (wEnv Quant.q4).setupOk (wEnv Quant.q4).loaded
          (wEnv Quant.q4).gen none) = some m)
    ∧ (∃ m, calculate_metrics ("8bit").data
        (PubMed.finalResults (wEnv Quant.q8).setupOk (wEnv Quant.q8).loaded
          (wEnv Quant.q8).gen none) = some m) := by
  have h := (compare_variant_failure_isolated wEnv none).2.2 rfl
  exact ⟨rfl, (h ("4bit").data).1 (by decide), (h ("8bit").data).2 (by decide)⟩

/-- C7: in every accumulator state the Evaluation Loop reaches (the state
after k iterations, any k), `correct ≤ total` holds (and `0 ≤ correct` is
trivial in ℕ), and every recorded result entry has its correctness flag
equal to exact string equality `predicted == ground_truth`; this holds for
both the PubMedQA and the WorldMedQA loop. -/
theorem accumulator_invariant :
    (∀ (gen : Nat → Str → Option (Str × ℚ)) (ds : List PubMed.Sample) (k : Nat),
      (PubMed.run_loop gen ds k).correct ≤ (PubMed.run_loop gen ds k).total
      ∧ ∀ e ∈ (PubMed.run_loop gen ds k).predictions,
          e.correct = (e.predicted == e.ground_truth))
    ∧ (∀ (dec : Str → Option Unit) (boi : Str) (gen : Nat → Str → Option (Str × ℚ))
         (ds : List WorldMed.Sample) (k : Nat),
      (WorldMed.run_loop dec boi gen ds k).correct ≤ (WorldMed.run_loop dec boi gen ds k).total
      ∧ ∀ e ∈ (WorldMed.run_loop dec boi gen ds k).predictions,
          e.correct = (e.predicted == e.ground_truth)) := by
  constructor
  · intro gen ds k
    refine ⟨PubMed.run_loop_correct_le_total gen ds k, ?_⟩
    intro e he
    rw [PubMed.run_loop_predictions] at he
    obtain ⟨i, _, rfl⟩ := List.mem_map.mp he
    rfl
  · intro dec boi gen ds k
    refine ⟨WorldMed.run_loop_correct_le_total_wm dec boi gen ds k, ?_⟩
    intro e he
    rw [WorldMed.run_loop_predictions_wm] at he
    obtain ⟨i, _, rfl⟩ := List.mem_map.mp he
    rfl

/-- Witness for C7 on a concrete one-sample run over the mock dataset. -/
theorem accumulator_invariant_witness :
    (PubMed.run_loop wGen PubMed.mockDataset 1).correct
      ≤ (PubMed.run_loop wGen PubMed.mockDataset 1).total
    ∧ ((PubMed.run_loop wGen PubMed.mockDataset 1).predictions.getD 0 dfltPred).correct
      = (((PubMed.run_loop wGen PubMed.mockDataset 1).predictions.getD 0 dfltPred).predicted
          == ((PubMed.run_loop wGen PubMed.mockDataset 1).predictions.getD 0 dfltPred).ground_truth) := by
  have h := accumulator_invariant.1 wGen PubMed.mockDataset 1
  exact ⟨h.1, h.2 _ (by decide)⟩

/-- C8: the Answer Extractor is a pure, deterministic function: equal raw
texts over an equal candidate alphabet always give the same label, and the
label the loop records is independent of the accumulator state (the only
mutable state in scope), i.e. there is no hidden-state dependence. -/
theorem answer_extractor_pure_deterministic :
    (∀ (alphabet : List Str) (t t' : Str), t = t' →
        firstCandidateInOrder alphabet t = firstCandidateInOrder alphabet t')
    ∧ (∀ raw raw' : Str, raw = raw' →
        PubMed.extractAnswer raw = PubMed.extractAnswer raw'
        ∧ WorldMed.extractAnswer raw = WorldMed.extractAnswer raw')
    ∧ (∀ (g : Str → Option (Str × ℚ)) (s : PubMed.Sample) (r r' : Results),
        lastPredicted (PubMed.stepSample g s r) = lastPredicted (PubMed.stepSample g s r')) := by
  refine ⟨fun a t t' h => by rw [h], fun raw raw' h => by rw [h]; exact ⟨rfl, rfl⟩, ?_⟩
  intro g s r r'
  unfold lastPredicted PubMed.stepSample
  dsimp
  rw [List.getLast?_concat, List.getLast?_concat]

/-- Witness for C8 at concrete inputs: the same raw text gives the same
label, and two different accumulator states record the same label. -/
theorem answer_extractor_pure_deterministic_witness :
    PubMed.extractAnswer ("not sure, maybe").data = PubMed.extractAnswer ("not sure, maybe").data
    ∧ lastPredicted (PubMed.stepSample wG wSampleShort initResults)
        = lastPredicted (PubMed.stepSample wG wSampleShort wResultsAlt) := by
  exact ⟨(answer_extractor_pure_deterministic.2.1 _ _ rfl).1,
    answer_extractor_pure_deterministic.2.2 wG wSampleShort initResults wResultsAlt⟩

/-- C9: when a sample's ground-truth label field is absent the loop
defaults the ground truth to the sentinel `unknown`; consequently a sample
whose prediction is `unknown` (a failed generation, or an output matching
no candidate) is scored as correct: the flag is `true` and the correct
count is incremented. Holds for both the PubMedQA loop (`final_decision`)
and the VQA-RAD loop (`answer`). -/
theorem missing_label_scored_correct :
    (∀ (g : Str → Option (Str × ℚ)) (s : PubMed.Sample) (r : Results),
      s.final_decision = none →
      (PubMed.evaluate_sample g s).1 = unknownStr →
      (PubMed.stepSample g s r).correct = r.correct + 1
      ∧ ∃ e, (PubMed.stepSample g s r).predictions = r.predictions ++ [e]
          ∧ e.ground_truth = unknownStr ∧ e.predicted = unknownStr ∧ e.correct = true)
    ∧ (∀ (boi : Str) (g : Str → Option (Str × ℚ)) (s : VQARad.Sample) (r : Results),
      s.answer = none →
      (VQARad.evaluate_sample boi g s).1 = unknownStr →
      (VQARad.stepSample boi g s r).correct = r.correct + 1
      ∧ ∃ e, (VQARad.stepSample boi g s r).predictions = r.predictions ++ [e]
          ∧ e.ground_truth = unknownStr ∧ e.predicted = unknownStr ∧ e.correct = true) := by
  constructor
  · intro g s r h1 h2
    have hgt : s.final_decision.getD unknownStr = unknownStr := by rw [h1]; rfl
    have hhit : ((PubMed.evaluate_sample g s).1 == s.final_decision.getD unknownStr) = true := by
      rw [h2, hgt]
      exact beq_self_eq_true _
    constructor
    · show r.correct
          + (if (PubMed.evaluate_sample g s).1 == s.final_decision.getD unknownStr then 1 else 0)
        = r.correct + 1
      rw [hhit]
      rfl
    · refine ⟨_, rfl, hgt, h2, hhit⟩
  · intro boi g s r h1 h2
    have hgt : lowerStr (s.answer.getD unknownStr) = unknownStr := by
      rw [h1]
      decide
    have hhit : ((VQARad.evaluate_sample boi g s).1 == lowerStr (s.answer.getD unknownStr)) = true := by
      rw [h2, hgt]
      exact beq_self_eq_true _
    constructor
    · show r.correct
          + (if (VQARad.evaluate_sample boi g s).1 == lowerStr (s.answer.getD unknownStr) then 1 else 0)
        = r.correct + 1
      rw [hhit]
      rfl
    · refine ⟨_, rfl, hgt, h2, hhit⟩

/-- Witness for C9: an unlabeled sample whose generation call raises is
scored as correct and bumps the correct count from 0 to 1. -/
theorem missing_label_scored_correct_witness :
    (PubMed.stepSample wGFail PubMed.defaultSample initResults).correct = initResults.correct + 1
    ∧ ∃ e, (PubMed.stepSample wGFail PubMed.defaultSample initResults).predictions
        = initResults.predictions ++ [e]
        ∧ e.ground_truth = unknownStr ∧ e.predicted = unknownStr ∧ e.correct = true := by
  exact missing_label_scored_correct.1 wGFail PubMed.defaultSample initResults rfl rfl

/-- C10: a sample cap of 0 is treated exactly like no cap, because the cap
is tested for Python truthiness rather than for being `None`: the effective
count becomes the full dataset length, the run is identical to the uncapped
run, and every sample is evaluated; this holds for both the PubMedQA and
the WorldMedQA loop. -/
theorem zero_cap_full_dataset :
    (∀ n : Nat, effectiveCount (some 0) n = n
      ∧ effectiveCount (some 0) n = effectiveCount none n)
    ∧ (∀ (gen : Nat → Str → Option (Str × ℚ)) (ds : List PubMed.Sample),
        PubMed.run_loop gen ds (effectiveCount (some 0) ds.length)
          = PubMed.run_loop gen ds (effectiveCount none ds.length)
        ∧ (PubMed.run_loop gen ds (effectiveCount (some 0) ds.length)).total = ds.length)
    ∧ (∀ (dec : Str → Option Unit) (boi : Str) (gen : Nat → Str → Option (Str × ℚ))
         (ds : List WorldMed.Sample),
        WorldMed.run_loop dec boi gen ds (effectiveCount (some 0) ds.length)
          = WorldMed.run_loop dec boi gen ds (effectiveCount none ds.length)
        ∧ (WorldMed.run_loop dec boi gen ds (effectiveCount (some 0) ds.length)).total
          = ds.length) := by
  have he : ∀ n : Nat, effectiveCount (some 0) n = n := by
    intro n
    simp [effectiveCount]
  have hn : ∀ n : Nat, effectiveCount none n = n := by
    intro n
    simp [effectiveCount]
  refine ⟨fun n => ⟨he n, by rw [he n, hn n]⟩, fun gen ds => ?_, fun dec boi gen ds => ?_⟩
  · rw [he ds.length, hn ds.length]
    exact ⟨rfl, PubMed.run_loop_total gen ds ds.length⟩
  · rw [he ds.length, hn ds.length]
    exact ⟨rfl, WorldMed.run_loop_total_wm dec boi gen ds ds.length⟩
